import Mathlib

/-
  Verification of the ROMP protocol engine (src/romp_helper.c) against its
  natural-language specification.

  The embedding below translates the C source directly:
  - bytes are Nat (each produced byte is < 256; reads apply the explicit
    mod-256 casts of the source GETSHORT macro);
  - the byte stream of a session is a finite List Nat; blocking reads that
    run out of stream model the EOF path of ruby_read_throw, which raises
    IOError "disconnected";
  - Ruby values exchanged through Marshal are modeled by the inductive
    RValue; string atoms (exception class names, message texts, backtrace
    frames) are opaque Nat identifiers, since only their identity matters
    to the protocol engine.
-/

namespace ROMP

-- ---------------------------------------------------------------------------
-- Constants (romp_helper.c lines 274-287)
-- ---------------------------------------------------------------------------

def ROMP_REQUEST : Nat := 0x1001
def ROMP_REQUEST_BLOCK : Nat := 0x1002
def ROMP_ONEWAY : Nat := 0x1003
def ROMP_ONEWAY_SYNC : Nat := 0x1004
def ROMP_RETVAL : Nat := 0x2001
def ROMP_EXCEPTION : Nat := 0x2002
def ROMP_YIELD : Nat := 0x2003
def ROMP_SYNC : Nat := 0x4001
def ROMP_NULL_MSG : Nat := 0x4002
def ROMP_MSG_START : Nat := 0x4242

/-- ROMP_BUFFER_SIZE from romp_helper.c line 287: the session scratch buffer
is 16 bytes, and both the header write in send_message_helper and the header
read in get_message transfer exactly this many bytes. -/
def ROMP_BUFFER_SIZE : Nat := 16

-- ---------------------------------------------------------------------------
-- PUTSHORT / GETSHORT macros (romp_helper.c lines 22-32)
-- ---------------------------------------------------------------------------

/-- PUTSHORT writes a 16-bit value big-endian into two bytes.  The C stores
`s >> 8` and `s & 0xff` into chars, so each byte is reduced mod 256. -/
def putshort (s : Nat) : List Nat := [s / 256 % 256, s % 256]

/-- GETSHORT reads two bytes big-endian into a uint16_t.  The C casts each
byte to unsigned char (mod 256) and the final assignment truncates to
16 bits (mod 65536). -/
def getshort (b0 b1 : Nat) : Nat := (b0 % 256 * 256 + b1 % 256) % 65536

-- ---------------------------------------------------------------------------
-- Frame codec: the header written by send_message_helper (lines 316-319)
-- and the header fields parsed by get_message (lines 358-361)
-- ---------------------------------------------------------------------------

/-- The four big-endian 16-bit header fields written by send_message_helper:
magic, payload length, message type, object id, in this order. -/
def encode_header (message_type object_id len : Nat) : List Nat :=
  putshort ROMP_MSG_START ++ putshort len ++ putshort message_type ++ putshort object_id

/-- The four GETSHORT reads of get_message, applied to the first eight bytes
of the header window: (magic, data_len, message_type, object_id).  The
window always holds ROMP_BUFFER_SIZE bytes, so the catch-all branch for a
window shorter than eight bytes is unreachable in get_message. -/
def decode_header : List Nat → Nat × Nat × Nat × Nat
  | b0 :: b1 :: b2 :: b3 :: b4 :: b5 :: b6 :: b7 :: _ =>
      (getshort b0 b1, getshort b2 b3, getshort b4 b5, getshort b6 b7)
  | _ => (0, 0, 0, 0)

/-- Bytes put on the wire by send_message_helper (lines 307-323): the first
ruby_write_throw sends ROMP_BUFFER_SIZE (= 16) bytes of session->buf, of
which PUTSHORT filled only the first eight; the remaining eight are stale
scratch-buffer residue, modeled by the scratch8 parameter.  The second
ruby_write_throw sends the len payload bytes. -/
def send_message_helper (data : List Nat) (message_type object_id : Nat)
    (scratch8 : List Nat) : List Nat :=
  (encode_header message_type object_id data.length ++ scratch8).take ROMP_BUFFER_SIZE
    ++ data

-- ---------------------------------------------------------------------------
-- get_message (romp_helper.c lines 346-374), byte level
-- ---------------------------------------------------------------------------

inductive RError where
  | typeError
  | rangeError
  | noMethodError
  /-- rb_raise(rb_eRuntimeError, "ROMP synchronization failed") in wait_sync -/
  | syncFailed
  /-- rb_raise(rb_eRuntimeError, "Invalid msg type received") in client_request -/
  | invalidMsgType
  /-- rb_raise(rb_eRuntimeError, "Bad session request") in server_reply -/
  | badSessionRequest
  /-- rb_raise(rb_eIOError, "disconnected") in READ_HELPER / WRITE_HELPER -/
  | disconnected
  deriving DecidableEq, Repr

/-- The header loop of get_message: read a ROMP_BUFFER_SIZE window, parse the
first eight bytes with GETSHORT, and repeat until magic matches
ROMP_MSG_START; then read data_len payload bytes.  The source loop is
unbounded; on a finite stream each iteration consumes 16 bytes, so a fuel
equal to the stream length strictly bounds the number of iterations and
never changes the result (get_message_go_fuel below).  A stream too short
for a full window or payload models the EOF path of ruby_read_throw. -/
def get_message_go (fuel : Nat) (s : List Nat) :
    Except RError ((Nat × Nat × List Nat) × List Nat) :=
  if ROMP_BUFFER_SIZE ≤ s.length then
    if (decode_header (s.take ROMP_BUFFER_SIZE)).1 = ROMP_MSG_START then
      if (decode_header (s.take ROMP_BUFFER_SIZE)).2.1 ≤ (s.drop ROMP_BUFFER_SIZE).length then
        .ok (((decode_header (s.take ROMP_BUFFER_SIZE)).2.2.1,
              (decode_header (s.take ROMP_BUFFER_SIZE)).2.2.2,
              (s.drop ROMP_BUFFER_SIZE).take (decode_header (s.take ROMP_BUFFER_SIZE)).2.1),
             (s.drop ROMP_BUFFER_SIZE).drop (decode_header (s.take ROMP_BUFFER_SIZE)).2.1)
      else .error .disconnected
    else
      match fuel with
      | 0 => .error .disconnected
      | fuel + 1 => get_message_go fuel (s.drop ROMP_BUFFER_SIZE)
  else .error .disconnected

/-- get_message on a byte stream: returns (message_type, object_id, payload
bytes) of the first frame whose window starts with a valid magic, plus the
unconsumed remainder of the stream. -/
def get_message (s : List Nat) : Except RError ((Nat × Nat × List Nat) × List Nat) :=
  get_message_go s.length s

/-- The magic field that get_message would parse at the start of the k-th
16-byte window of a stream. -/
def windowMagic (s : List Nat) (k : Nat) : Nat :=
  (decode_header ((s.drop (ROMP_BUFFER_SIZE * k)).take ROMP_BUFFER_SIZE)).1

-- ---------------------------------------------------------------------------
-- Ruby values and messages (value level)
-- ---------------------------------------------------------------------------

/-- Ruby values exchanged through Marshal, as far as the protocol engine
inspects them.  String atoms (exception class names, exception message
texts, backtrace frames) are opaque Nat identifiers: the engine only copies
them around, so only their identity matters.  An exception object is
determined by its class, its message and its backtrace (the three things
ruby_exc_message, ruby_exc_backtrace and ruby_raise touch).  objref models
an ROMP::Object_Reference carrying an object id. -/
inductive RValue where
  | nil
  | int (n : Int)
  | str (s : Nat)
  | exc (cls msg : Nat) (backtrace : List Nat)
  | objref (object_id : Nat)
  deriving DecidableEq, Repr

/-- ROMP_Message (romp_helper.c lines 300-304), at value level: the decoded
message_type and object_id header fields plus the unmarshalled payload. -/
structure RMessage where
  message_type : Nat
  object_id : Nat
  message_obj : RValue
  deriving DecidableEq, Repr

/-- NUM2INT: Ruby-to-C integer conversion.  An Integer converts to its
value; any other value (in particular nil) raises TypeError. -/
def NUM2INT : RValue → Except RError Int
  | .int n => .ok n
  | _ => .error .typeError

-- ---------------------------------------------------------------------------
-- Proxy objects (romp_helper.c lines 553-559, 691-761)
-- ---------------------------------------------------------------------------

/-- Proxy_Object struct (lines 553-559).  session and ruby_session are the
same underlying session (the C keeps both the unwrapped pointer and the
wrapping VALUE); session refs and the mutex ref are opaque Nat ids. -/
structure Proxy_Object where
  session : Nat
  ruby_session : Nat
  object_id : Nat
  message : RValue
  mutex : Nat
  deriving DecidableEq, Repr

/-- ruby_proxy_object_new (lines 691-714).  NUM2INT is evaluated first (at
the declaration of object_id) and raises RangeError when the Ruby Integer
does not fit in a C int; then the session argument is type-checked
(session_is_session models rb_obj_is_kind_of(ruby_session, rb_cSession));
finally the id is stored into the uint16_t object_id field, which truncates
it mod 65536.  There is no check against ROMP_MAX_ID anywhere.
Data_Make_Struct zero-fills the struct; the zero-initialized message field
(overwritten by every call operation before use) is modeled as nil. -/
def ruby_proxy_object_new (session_is_session : Bool) (ruby_session mutex : Nat)
    (ruby_object_id : Int) : Except RError Proxy_Object :=
  if ruby_object_id < -2147483648 ∨ 2147483648 ≤ ruby_object_id then .error .rangeError
  else if session_is_session = false then .error .typeError
  else .ok ⟨ruby_session, ruby_session, (ruby_object_id % 65536).toNat, RValue.nil, mutex⟩

/-- State effect of ruby_proxy_object_method_missing (lines 717-726) on the
proxy struct: the outgoing message is stored into the message field (line
721, before the mutex is even locked); no other field is touched. -/
def ruby_proxy_object_method_missing (p : Proxy_Object) (message : RValue) : Proxy_Object :=
  { p with message := message }

/-- State effect of ruby_proxy_object_oneway (lines 728-738) on the proxy
struct: identical to method_missing, it stores the outgoing message. -/
def ruby_proxy_object_oneway (p : Proxy_Object) (message : RValue) : Proxy_Object :=
  { p with message := message }

/-- State effect of ruby_proxy_object_oneway_sync (lines 740-750) on the
proxy struct: identical to method_missing, it stores the outgoing message. -/
def ruby_proxy_object_oneway_sync (p : Proxy_Object) (message : RValue) : Proxy_Object :=
  { p with message := message }

/-- State effect of ruby_proxy_object_sync (lines 752-761) on the proxy
struct: sync takes no message argument and stores nothing. -/
def ruby_proxy_object_sync_state (p : Proxy_Object) : Proxy_Object := p

-- ---------------------------------------------------------------------------
-- Sync protocol (romp_helper.c lines 384-410)
-- ---------------------------------------------------------------------------

/-- The ROMP_Message sent by send_sync (lines 384-388): a SYNC frame with
object_id 0 and nil payload. -/
def send_sync_message : RMessage := ⟨ROMP_SYNC, 0, RValue.nil⟩

/-- wait_sync (lines 392-402): reads one message and raises RuntimeError
"ROMP synchronization failed" if and only if the received message satisfies
message_type != ROMP_SYNC AND object_id != 1 AND message_obj != Qnil (the
source tests the three conditions with logical AND). -/
def wait_sync (m : RMessage) : Except RError Unit :=
  if m.message_type ≠ ROMP_SYNC ∧ m.object_id ≠ 1 ∧ m.message_obj ≠ RValue.nil
  then .error .syncFailed
  else .ok ()

/-- reply_sync (lines 405-410): when the given value is 0, send a SYNC frame
with object_id 1 and nil payload; otherwise send nothing.  Returns the list
of messages sent. -/
def reply_sync (value : Int) : List RMessage :=
  if value = 0 then [⟨ROMP_SYNC, 1, RValue.nil⟩] else []

-- ---------------------------------------------------------------------------
-- Reference materialiser msg_to_obj (romp_helper.c lines 786-796)
-- ---------------------------------------------------------------------------

/-- A value as handed back to the caller of a client operation: either the
decoded value itself, or a fresh proxy when the value was an
Object_Reference marker.  The new proxy is built against the session and
mutex of the call (carried implicitly); only its object id is recorded. -/
inductive MValue where
  | plain (v : RValue)
  | proxy (object_id : Nat)
  deriving DecidableEq, Repr

/-- msg_to_obj (lines 786-796): an Object_Reference becomes a new
Proxy_Object on the same session and mutex; anything else is returned
unchanged. -/
def msg_to_obj (message : RValue) : MValue :=
  match message with
  | .objref oid => .proxy oid
  | v => .plain v

-- ---------------------------------------------------------------------------
-- Client response loop client_request (romp_helper.c lines 564-597)
-- ---------------------------------------------------------------------------

/-- How a client call terminates. -/
inductive ClientOutcome where
  /-- a RETVAL frame: return the materialised value -/
  | returned (v : MValue)
  /-- an EXCEPTION frame: ruby_raise with class cls, message msg, and the
  given merged backtrace -/
  | raised (cls msg : Nat) (backtrace : List Nat)
  /-- a local Ruby error escaped the loop -/
  | errored (e : RError)
  /-- model artifact: the finite incoming-message trace was exhausted while
  the loop was still waiting (the source would block on the next read) -/
  | streamEnded
  deriving DecidableEq, Repr

/-- The response loop of client_request (lines 573-596), run against the
trace of incoming messages, given the local caller stack local_caller (what
ruby_caller() returns at the raise site).  Returns the outcome, the list of
messages the loop sent (the reply_sync acks), and the list of values passed
to rb_yield, in order.  Branches, in source order:
- RETVAL: return msg_to_obj of the payload;
- YIELD: rb_yield msg_to_obj of the payload, continue;
- EXCEPTION: ruby_raise(payload, ruby_exc_message(payload),
  ruby_exc_backtrace(payload) ++ ruby_caller()); calling message on a
  non-exception payload raises NoMethodError;
- SYNC: reply_sync(session, NUM2INT(payload)) - note the source passes the
  PAYLOAD, not the object_id tag, and NUM2INT of a nil payload raises
  TypeError;
- anything else: rb_raise RuntimeError "Invalid msg type received". -/
def client_request (local_caller : List Nat) :
    List RMessage → ClientOutcome × List RMessage × List MValue
  | [] => (.streamEnded, [], [])
  | m :: rest =>
    if m.message_type = ROMP_RETVAL then
      (.returned (msg_to_obj m.message_obj), [], [])
    else if m.message_type = ROMP_YIELD then
      let r := client_request local_caller rest
      (r.1, r.2.1, msg_to_obj m.message_obj :: r.2.2)
    else if m.message_type = ROMP_EXCEPTION then
      match m.message_obj with
      | .exc cls msg bt => (.raised cls msg (bt ++ local_caller), [], [])
      | _ => (.errored .noMethodError, [], [])
    else if m.message_type = ROMP_SYNC then
      match NUM2INT m.message_obj with
      | .ok n =>
        let r := client_request local_caller rest
        (r.1, reply_sync n ++ r.2.1, r.2.2)
      | .error e => (.errored e, [], [])
    else
      (.errored .invalidMsgType, [], [])

-- ---------------------------------------------------------------------------
-- Server reply (romp_helper.c lines 418-545)
-- ---------------------------------------------------------------------------

/-- Observable events of one server loop iteration, in order. -/
inductive SEvent where
  /-- send_message / send_null_message on the session -/
  | sendFrame (message_type object_id : Nat) (message_obj : RValue)
  /-- the invocation of the resolved target object with the decoded call -/
  | invoke (object_id : Nat) (message_obj : RValue)
  /-- ruby_print_exception (only when debug is enabled) -/
  | logException (e : RValue)
  deriving DecidableEq, Repr

/-- What the invocation of the target method does: return a value or raise
an exception. -/
inductive InvokeResult where
  | ok (v : RValue)
  | raise (e : RValue)
  deriving DecidableEq, Repr

/-- Backtrace trimming in server_exception (line 468): slice! removes the
frames from index (bt.length - caller.length - 1) to the end, keeping the
first (bt.length - caller.length - 1) frames. -/
def trim_backtrace (caller_len : Nat) (bt : List Nat) : List Nat :=
  bt.take (bt.length - caller_len - 1)

/-- server_exception (lines 458-478): trim the backtrace of the escaped
exception, print it when debug is enabled, then send it to the client as an
EXCEPTION frame with object_id 0.  caller_len is the length of
ruby_caller() at this point. -/
def server_exception (debug : Bool) (caller_len : Nat) (e : RValue) : List SEvent :=
  match e with
  | .exc cls msg bt =>
      (if debug then [.logException (.exc cls msg (trim_backtrace caller_len bt))] else [])
        ++ [.sendFrame ROMP_EXCEPTION 0 (.exc cls msg (trim_backtrace caller_len bt))]
  | v =>
      (if debug then [.logException v] else []) ++ [.sendFrame ROMP_EXCEPTION 0 v]

/-- server_reply (lines 481-529), after the target object has been resolved:
the trace of events of the switch on message_type, plus the exception that
escapes to rb_rescue2, if any.  Cases, in source order:
- ONEWAY_SYNC: send_null_message first, then fall through to ONEWAY;
- ONEWAY: rb_protect around the invocation swallows any exception (the
  status is discarded without inspection), nothing is sent;
- REQUEST: invoke; on success server_send_retval sends RETVAL 0, on raise
  the exception escapes;
- REQUEST_BLOCK: rb_iterate with server_send_yield as the block: each
  yielded value is sent as a YIELD 0 frame during the invocation (the
  yields parameter lists them), then RETVAL 0 on success;
- SYNC: reply_sync(session, object_id);
- default: rb_raise RuntimeError "Bad session request", which escapes. -/
def server_reply (msg : RMessage) (inv : InvokeResult) (yields : List RValue) :
    List SEvent × Option RValue :=
  if msg.message_type = ROMP_ONEWAY_SYNC then
    ([.sendFrame ROMP_NULL_MSG 0 .nil, .invoke msg.object_id msg.message_obj], none)
  else if msg.message_type = ROMP_ONEWAY then
    ([.invoke msg.object_id msg.message_obj], none)
  else if msg.message_type = ROMP_REQUEST then
    match inv with
    | .ok v => ([.invoke msg.object_id msg.message_obj, .sendFrame ROMP_RETVAL 0 v], none)
    | .raise e => ([.invoke msg.object_id msg.message_obj], some e)
  else if msg.message_type = ROMP_REQUEST_BLOCK then
    match inv with
    | .ok v => (.invoke msg.object_id msg.message_obj
                  :: yields.map (fun y => SEvent.sendFrame ROMP_YIELD 0 y)
                  ++ [.sendFrame ROMP_RETVAL 0 v], none)
    | .raise e => (.invoke msg.object_id msg.message_obj
                  :: yields.map (fun y => SEvent.sendFrame ROMP_YIELD 0 y), some e)
  else if msg.message_type = ROMP_SYNC then
    ((reply_sync (Int.ofNat msg.object_id)).map
        (fun r => SEvent.sendFrame r.message_type r.object_id r.message_obj), none)
  else
    ([], some (RValue.exc 0 1 []))

/-- One iteration of server_loop (lines 538-544): get_message, then
rb_rescue2(server_reply, server_exception).  resolution models
ruby_get_object on the resolver (line 486): when it raises, the exception
goes straight to server_exception without any invocation.  The atoms 0 and
1 in the default-case exception stand for the RuntimeError class and the
"Bad session request" text. -/
def server_step (debug : Bool) (caller_len : Nat) (msg : RMessage)
    (resolution : Except RValue Unit) (inv : InvokeResult) (yields : List RValue) :
    List SEvent :=
  match resolution with
  | .error e => server_exception debug caller_len e
  | .ok () =>
    match server_reply msg inv yields with
    | (tr, none) => tr
    | (tr, some e) => tr ++ server_exception debug caller_len e

-- ---------------------------------------------------------------------------
-- Helper lemmas
-- ---------------------------------------------------------------------------

/-- GETSHORT undoes PUTSHORT for any 16-bit value. -/
theorem getshort_putshort (n : Nat) (h : n < 65536) :
    getshort (n / 256 % 256) (n % 256) = n := by
  unfold getshort
  omega

/-- decode_header reads back the four fields written by encode_header from
the first eight bytes of any window starting with them. -/
theorem decode_encode (message_type object_id len : Nat) (tail : List Nat)
    (hmt : message_type < 65536) (ho : object_id < 65536) (hl : len < 65536) :
    decode_header (encode_header message_type object_id len ++ tail)
      = (ROMP_MSG_START, len, message_type, object_id) := by
  simp only [encode_header, putshort, List.cons_append, List.nil_append, decode_header]
  rw [getshort_putshort len hl, getshort_putshort message_type hmt,
    getshort_putshort object_id ho]
  norm_num [getshort, ROMP_MSG_START]

/-- The wire bytes of a frame: with the scratch residue at its actual
length, the 16-byte window is the encoded header followed by the residue,
and the payload follows. -/
theorem send_message_helper_eq (data scratch8 : List Nat) (mt oid : Nat)
    (h8 : scratch8.length = 8) :
    send_message_helper data mt oid scratch8
      = encode_header mt oid data.length ++ scratch8 ++ data := by
  unfold send_message_helper
  have h16 : (encode_header mt oid data.length ++ scratch8).length = ROMP_BUFFER_SIZE := by
    simp [encode_header, putshort, h8, ROMP_BUFFER_SIZE]
  rw [← h16, List.take_length]

/-- One-step unfolding of get_message_go, valid for a fuel value of any
shape. -/
theorem get_message_go_eq (fuel : Nat) (s : List Nat) :
    get_message_go fuel s =
      if ROMP_BUFFER_SIZE ≤ s.length then
        if (decode_header (s.take ROMP_BUFFER_SIZE)).1 = ROMP_MSG_START then
          if (decode_header (s.take ROMP_BUFFER_SIZE)).2.1 ≤ (s.drop ROMP_BUFFER_SIZE).length then
            .ok (((decode_header (s.take ROMP_BUFFER_SIZE)).2.2.1,
                  (decode_header (s.take ROMP_BUFFER_SIZE)).2.2.2,
                  (s.drop ROMP_BUFFER_SIZE).take (decode_header (s.take ROMP_BUFFER_SIZE)).2.1),
                 (s.drop ROMP_BUFFER_SIZE).drop (decode_header (s.take ROMP_BUFFER_SIZE)).2.1)
          else .error .disconnected
        else
          match fuel with
          | 0 => .error .disconnected
          | fuel + 1 => get_message_go fuel (s.drop ROMP_BUFFER_SIZE)
      else .error .disconnected := by
  cases fuel <;> rfl

/-- The fuel of get_message_go does not affect its result as long as it is
at least the stream length: the loop discards 16 bytes per iteration, so
the stream length bounds the iteration count. -/
theorem get_message_go_fuel (fuel₁ : Nat) : ∀ (fuel₂ : Nat) (s : List Nat),
    s.length ≤ fuel₁ → s.length ≤ fuel₂ →
    get_message_go fuel₁ s = get_message_go fuel₂ s := by
  induction fuel₁ with
  | zero =>
    intro fuel₂ s h₁ h₂
    rw [get_message_go_eq, get_message_go_eq]
    have hs : ¬ ROMP_BUFFER_SIZE ≤ s.length := by
      unfold ROMP_BUFFER_SIZE
      omega
    rw [if_neg hs, if_neg hs]
  | succ f ih =>
    intro fuel₂ s h₁ h₂
    rw [get_message_go_eq, get_message_go_eq]
    by_cases hs : ROMP_BUFFER_SIZE ≤ s.length
    · rw [if_pos hs, if_pos hs]
      by_cases hm : (decode_header (s.take ROMP_BUFFER_SIZE)).1 = ROMP_MSG_START
      · rw [if_pos hm, if_pos hm]
      · rw [if_neg hm, if_neg hm]
        have h16 : (16 : Nat) ≤ s.length := hs
        cases fuel₂ with
        | zero => omega
        | succ g =>
          show get_message_go f (s.drop ROMP_BUFFER_SIZE)
              = get_message_go g (s.drop ROMP_BUFFER_SIZE)
          apply ih
          · rw [List.length_drop]
            unfold ROMP_BUFFER_SIZE
            omega
          · rw [List.length_drop]
            unfold ROMP_BUFFER_SIZE
            omega
    · rw [if_neg hs, if_neg hs]

/-- Dropping one 16-byte window shifts the window index by one. -/
theorem windowMagic_drop (s : List Nat) (k : Nat) :
    windowMagic (s.drop ROMP_BUFFER_SIZE) k = windowMagic s (k + 1) := by
  unfold windowMagic
  rw [List.drop_drop]
  have h : ROMP_BUFFER_SIZE + ROMP_BUFFER_SIZE * k = ROMP_BUFFER_SIZE * (k + 1) := by
    unfold ROMP_BUFFER_SIZE
    omega
  rw [h]

/-- Skipping garbage: if a prefix of the stream has a length that is a
multiple of 16 and none of its 16-byte windows starts with a valid magic,
get_message behaves as if the prefix were absent. -/
theorem get_message_skip_aux (n : Nat) : ∀ (garbage tail : List Nat),
    garbage.length = n → n % 16 = 0 →
    (∀ k, k < n / 16 → windowMagic garbage k ≠ ROMP_MSG_START) →
    get_message (garbage ++ tail) = get_message tail := by
  induction n using Nat.strong_induction_on with
  | _ n ih =>
    intro garbage tail hlen hmod hmag
    rcases Nat.eq_zero_or_pos n with h0 | hpos
    · have : garbage = [] := List.eq_nil_of_length_eq_zero (h0 ▸ hlen)
      rw [this, List.nil_append]
    · have h16 : 16 ≤ n := by omega
      have hgl : 16 ≤ garbage.length := by omega
      unfold get_message
      rw [get_message_go_eq]
      have hsl : (garbage ++ tail).length = n + tail.length := by
        rw [List.length_append, hlen]
      have hcond : ROMP_BUFFER_SIZE ≤ (garbage ++ tail).length := by
        unfold ROMP_BUFFER_SIZE
        omega
      rw [if_pos hcond]
      have htake : (garbage ++ tail).take ROMP_BUFFER_SIZE = garbage.take ROMP_BUFFER_SIZE := by
        rw [List.take_append_eq_append_take]
        have : ROMP_BUFFER_SIZE - garbage.length = 0 := by
          unfold ROMP_BUFFER_SIZE
          omega
        rw [this, List.take_zero, List.append_nil]
      have hm0 : (decode_header ((garbage ++ tail).take ROMP_BUFFER_SIZE)).1 ≠ ROMP_MSG_START := by
        rw [htake]
        have := hmag 0 (by omega)
        unfold windowMagic at this
        simpa using this
      rw [if_neg hm0]
      have hdrop : (garbage ++ tail).drop ROMP_BUFFER_SIZE
          = garbage.drop ROMP_BUFFER_SIZE ++ tail := by
        rw [List.drop_append_eq_append_drop]
        have : ROMP_BUFFER_SIZE - garbage.length = 0 := by
          unfold ROMP_BUFFER_SIZE
          omega
        rw [this, List.drop_zero]
      have hfs : (garbage ++ tail).length = ((garbage ++ tail).length - 1) + 1 := by
        rw [hsl]
        omega
      rw [hfs]
      show get_message_go ((garbage ++ tail).length - 1) ((garbage ++ tail).drop ROMP_BUFFER_SIZE)
          = get_message tail
      rw [hdrop]
      have hdl : (garbage.drop ROMP_BUFFER_SIZE ++ tail).length = (n - 16) + tail.length := by
        rw [List.length_append, List.length_drop, hlen]
        unfold ROMP_BUFFER_SIZE
        omega
      rw [get_message_go_fuel ((garbage ++ tail).length - 1)
            (garbage.drop ROMP_BUFFER_SIZE ++ tail).length
            (garbage.drop ROMP_BUFFER_SIZE ++ tail)
            (by rw [hdl, hsl]; omega) (by omega)]
      show get_message (garbage.drop ROMP_BUFFER_SIZE ++ tail) = get_message tail
      exact ih (n - 16) (by omega) (garbage.drop ROMP_BUFFER_SIZE) tail
        (by rw [List.length_drop, hlen]; unfold ROMP_BUFFER_SIZE; omega)
        (by omega)
        (by
          intro k hk
          rw [windowMagic_drop]
          exact hmag (k + 1) (by omega))

/-- A well-formed frame at the head of the stream is parsed back exactly:
header fields and payload are recovered and the remainder is untouched. -/
theorem get_message_send (data scratch8 rest : List Nat) (mt oid : Nat)
    (h8 : scratch8.length = 8) (hd : data.length < 65536)
    (hmt : mt < 65536) (ho : oid < 65536) :
    get_message (send_message_helper data mt oid scratch8 ++ rest)
      = .ok ((mt, oid, data), rest) := by
  rw [send_message_helper_eq data scratch8 mt oid h8]
  have hH : (encode_header mt oid data.length ++ scratch8).length = 16 := by
    simp [encode_header, putshort, h8]
  rw [List.append_assoc (encode_header mt oid data.length ++ scratch8) data rest]
  unfold get_message
  rw [get_message_go_eq]
  have hsl : ((encode_header mt oid data.length ++ scratch8) ++ (data ++ rest)).length
      = 16 + (data.length + rest.length) := by
    rw [List.length_append, hH, List.length_append]
  have hcond : ROMP_BUFFER_SIZE
      ≤ ((encode_header mt oid data.length ++ scratch8) ++ (data ++ rest)).length := by
    unfold ROMP_BUFFER_SIZE
    omega
  rw [if_pos hcond]
  have htake : ((encode_header mt oid data.length ++ scratch8) ++ (data ++ rest)).take
        ROMP_BUFFER_SIZE
      = encode_header mt oid data.length ++ scratch8 := by
    show ((encode_header mt oid data.length ++ scratch8) ++ (data ++ rest)).take 16
      = encode_header mt oid data.length ++ scratch8
    rw [← hH, List.take_left]
  have hdrop : ((encode_header mt oid data.length ++ scratch8) ++ (data ++ rest)).drop
        ROMP_BUFFER_SIZE
      = data ++ rest := by
    show ((encode_header mt oid data.length ++ scratch8) ++ (data ++ rest)).drop 16
      = data ++ rest
    rw [← hH, List.drop_left]
  rw [htake, hdrop]
  rw [decode_encode mt oid data.length scratch8 hmt ho hd]
  rw [if_pos rfl]
  have hlen2 : data.length ≤ (data ++ rest).length := by
    rw [List.length_append]
    omega
  rw [if_pos hlen2]
  rw [List.take_left, List.drop_left]

-- ---------------------------------------------------------------------------
-- Claim theorems
-- ---------------------------------------------------------------------------

/-- Claim C1, counterexample: the frame written for a 3-byte payload is 19
bytes long, not 8 + 3 as the claim states, and the receiver fails (needing
a 16-byte window) on a stream that holds exactly the 8-byte header plus the
payload the claim describes. -/
theorem frame_has_sixteen_byte_header :
    (send_message_helper (List.replicate 3 7) 0x1001 1 (List.replicate 8 0)).length = 19
    ∧ ¬ (send_message_helper (List.replicate 3 7) 0x1001 1 (List.replicate 8 0)).length = 8 + 3
    ∧ get_message (encode_header 0x1001 1 3 ++ List.replicate 3 7)
        = .error RError.disconnected := by
  refine ⟨rfl, by decide, rfl⟩

/-- Claim C1 (amended): the frame written to the transport consists of a
16-byte header block - the four big-endian 16-bit fields (magic, len, kind,
object_id) in its first 8 bytes, followed by 8 bytes of scratch-buffer
residue - immediately followed by exactly len payload bytes (len < 2^16),
and the receiver reads exactly a 16-byte header window before reading the
payload, recovering the fields and the payload exactly. -/
theorem frame_layout (data scratch8 rest : List Nat) (mt oid : Nat)
    (h8 : scratch8.length = 8) (hd : data.length < 65536)
    (hmt : mt < 65536) (ho : oid < 65536) :
    send_message_helper data mt oid scratch8
        = encode_header mt oid data.length ++ scratch8 ++ data
    ∧ (send_message_helper data mt oid scratch8).length = ROMP_BUFFER_SIZE + data.length
    ∧ get_message (send_message_helper data mt oid scratch8 ++ rest)
        = .ok ((mt, oid, data), rest) := by
  refine ⟨send_message_helper_eq data scratch8 mt oid h8, ?_,
    get_message_send data scratch8 rest mt oid h8 hd hmt ho⟩
  rw [send_message_helper_eq data scratch8 mt oid h8]
  have hA : (encode_header mt oid data.length).length = 8 := by
    simp [encode_header, putshort]
  rw [List.length_append, List.length_append, hA, h8]
  unfold ROMP_BUFFER_SIZE
  omega

/-- Claim C1 witness: the layout and round-trip at a concrete frame. -/
theorem frame_layout_witness :
    send_message_helper [9] 0x2001 2 (List.replicate 8 3)
        = encode_header 0x2001 2 1 ++ List.replicate 8 3 ++ [9]
    ∧ (send_message_helper [9] 0x2001 2 (List.replicate 8 3)).length = ROMP_BUFFER_SIZE + 1
    ∧ get_message (send_message_helper [9] 0x2001 2 (List.replicate 8 3) ++ [4, 2])
        = .ok ((0x2001, 2, [9]), [4, 2]) :=
  frame_layout [9] (List.replicate 8 3) [4, 2] 0x2001 2
    (by decide) (by decide) (by decide) (by decide)

/-- Claim C2, counterexample: prepending 16 zero bytes (a multiple of 8,
containing no valid magic at any boundary) to a valid frame stream makes
the receiver skip the whole 16-byte window and deliver the frame; no
ProtocolError is raised, and the discard granularity is 16 bytes, not 8. -/
theorem garbage_prefix_skipped_without_error :
    get_message (List.replicate 16 0 ++ send_message_helper [5] 0x1001 3 (List.replicate 8 0))
      = .ok ((0x1001, 3, [5]), []) := rfl

/-- Claim C2 (amended): on a header window whose magic is not 0x4242 the
receiver discards exactly 16 bytes (one ROMP_BUFFER_SIZE window) and
re-reads; for every input stream formed by prepending multiple-of-16-byte
garbage containing no valid magic at the start of any 16-byte window to a
valid frame stream, the receiver skips the garbage and returns the valid
frame without raising any error (the resync loop never raises; only EOF
mid-read raises disconnected). -/
theorem magic_resync (garbage data scratch8 rest : List Nat) (mt oid : Nat)
    (hg : garbage.length % 16 = 0)
    (hm : ∀ k, k < garbage.length / 16 → windowMagic garbage k ≠ ROMP_MSG_START)
    (h8 : scratch8.length = 8) (hd : data.length < 65536)
    (hmt : mt < 65536) (ho : oid < 65536) :
    get_message (garbage ++ (send_message_helper data mt oid scratch8 ++ rest))
      = .ok ((mt, oid, data), rest) := by
  rw [get_message_skip_aux garbage.length garbage
    (send_message_helper data mt oid scratch8 ++ rest) rfl hg hm]
  exact get_message_send data scratch8 rest mt oid h8 hd hmt ho

/-- Claim C2 witness: 32 bytes of garbage (two windows, magic 0x0101 each)
before a concrete frame are skipped and the frame is delivered. -/
theorem magic_resync_witness :
    get_message (List.replicate 32 1
        ++ (send_message_helper [9] 0x1001 7 (List.replicate 8 0) ++ []))
      = .ok ((0x1001, 7, [9]), []) :=
  magic_resync (List.replicate 32 1) [9] (List.replicate 8 0) [] 0x1001 7
    (by decide) (by decide) (by decide) (by decide) (by decide) (by decide)

/-- Claim C3: for all kind, oid, len in [0, 2^16), decoding the header
produced by encoding (kind, oid, len) yields exactly
(ROMP_MSG_START, len, kind, oid): the four 16-bit big-endian header fields
round-trip through the frame codec. -/
theorem header_roundtrip (kind oid len : Nat)
    (hk : kind < 65536) (ho : oid < 65536) (hl : len < 65536) :
    decode_header (encode_header kind oid len) = (ROMP_MSG_START, len, kind, oid) := by
  have h := decode_encode kind oid len [] hk ho hl
  rwa [List.append_nil] at h

/-- Claim C3 witness: the round-trip at a concrete header. -/
theorem header_roundtrip_witness :
    decode_header (encode_header 0x1001 7 3) = (ROMP_MSG_START, 3, 0x1001, 7) :=
  header_roundtrip 0x1001 7 3 (by decide) (by decide) (by decide)

/-- Claim C4: when the response loop of a call receives an EXCEPTION frame,
it raises a local exception of the same class as the decoded remote
exception, with the remote message preserved, and with a backtrace equal to
the remote backtrace concatenated with the local caller stack (remote
frames first, then the local frames); nothing is sent or yielded. -/
theorem exception_raises_same_class_merged_backtrace (cls msg : Nat)
    (bt local_caller : List Nat) (oid : Nat) (rest : List RMessage) :
    client_request local_caller (⟨ROMP_EXCEPTION, oid, RValue.exc cls msg bt⟩ :: rest)
      = (ClientOutcome.raised cls msg (bt ++ local_caller), [], []) := rfl

/-- Claim C5: for every ONEWAY_SYNC request, exactly one NULL_MSG frame is
sent, it is sent before the target method is invoked, and no further frame
is sent after the invocation, whatever the invocation does - including
raising an exception (the trace is the same for every InvokeResult). -/
theorem oneway_sync_ack_before_invoke (debug : Bool) (caller_len oid : Nat)
    (m : RValue) (inv : InvokeResult) (yields : List RValue) :
    server_step debug caller_len ⟨ROMP_ONEWAY_SYNC, oid, m⟩ (.ok ()) inv yields
      = [SEvent.sendFrame ROMP_NULL_MSG 0 RValue.nil, SEvent.invoke oid m] := rfl

/-- Claim C6, evaluation at the failing input: send_sync does send a SYNC
frame with object_id 0, but wait_sync tests its three conditions with
logical AND, so a RETVAL frame with object_id 1, and even a RETVAL frame
with object_id 0 and nil payload, are accepted as the sync reply; the error
fires only when all three conditions hold at once. -/
theorem wait_sync_uses_conjunction :
    send_sync_message = ⟨ROMP_SYNC, 0, RValue.nil⟩
    ∧ wait_sync ⟨ROMP_RETVAL, 1, RValue.nil⟩ = .ok ()
    ∧ wait_sync ⟨ROMP_RETVAL, 0, RValue.nil⟩ = .ok ()
    ∧ wait_sync ⟨ROMP_RETVAL, 0, RValue.str 0⟩ = .error RError.syncFailed :=
  ⟨rfl, rfl, rfl, rfl⟩

/-- Claim C7, evaluation at the failing input: the response loop passes the
SYNC frame payload (not its object_id tag) to NUM2INT; a genuine SYNC frame
carries a nil payload, so the loop raises TypeError, terminates the call
without sending any sync reply, and never reaches the following RETVAL. -/
theorem sync_in_loop_raises_type_error :
    client_request [] [⟨ROMP_SYNC, 0, RValue.nil⟩, ⟨ROMP_RETVAL, 0, RValue.int 42⟩]
      = (ClientOutcome.errored RError.typeError, [], []) := rfl

/-- Claim C8, counterexample: constructing a proxy with object_id 65536
(greater than 65535) raises no error; the id silently wraps to 0. -/
theorem proxy_new_accepts_large_id :
    ruby_proxy_object_new true 0 0 65536 = .ok ⟨0, 0, 0, RValue.nil, 0⟩ := rfl

/-- Claim C8 (amended): for every id in the C int range, constructing a
proxy succeeds and stores the id truncated mod 65536 in the uint16_t
object_id field; no error is raised for ids above 65535 (only NUM2INT
range failures for ids outside the int range raise). -/
theorem proxy_new_truncates_id (ruby_session mutex : Nat) (ruby_object_id : Int)
    (h1 : -2147483648 ≤ ruby_object_id) (h2 : ruby_object_id < 2147483648) :
    ruby_proxy_object_new true ruby_session mutex ruby_object_id
      = .ok ⟨ruby_session, ruby_session, (ruby_object_id % 65536).toNat,
             RValue.nil, mutex⟩ := by
  unfold ruby_proxy_object_new
  rw [if_neg (by omega), if_neg (by simp)]

/-- Claim C8 witness: id 70000 yields a proxy with object_id 4464, no
error. -/
theorem proxy_new_truncates_id_witness :
    ruby_proxy_object_new true 0 0 70000 = .ok ⟨0, 0, 4464, RValue.nil, 0⟩ := by
  have h := proxy_new_truncates_id 0 0 70000 (by decide) (by decide)
  have h2 : ((70000 : Int) % 65536).toNat = 4464 := by decide
  rw [h2] at h
  exact h

/-- Claim C9, counterexample: a ONEWAY request whose invocation raises,
with debug enabled, produces a trace with no log event at all - the
exception is swallowed by rb_protect before the logging path can see it. -/
theorem oneway_exception_not_logged :
    server_step true 0 ⟨ROMP_ONEWAY, 5, RValue.str 2⟩ (.ok ())
        (.raise (RValue.exc 3 4 [6])) []
      = [SEvent.invoke 5 (RValue.str 2)]
    ∧ SEvent.logException (RValue.exc 3 4 [6])
        ∉ server_step true 0 ⟨ROMP_ONEWAY, 5, RValue.str 2⟩ (.ok ())
            (.raise (RValue.exc 3 4 [6])) [] := by
  refine ⟨rfl, by decide⟩

/-- Claim C9 (amended): for every ONEWAY request the server invokes the
target and sends no reply frame; an exception from the invocation is
discarded without being logged (even when debug is enabled), never
propagated and never serialised to the client: the trace is exactly the
invocation, for every InvokeResult and every debug setting. -/
theorem oneway_invokes_and_sends_nothing (debug : Bool) (caller_len oid : Nat)
    (m : RValue) (inv : InvokeResult) (yields : List RValue) :
    server_step debug caller_len ⟨ROMP_ONEWAY, oid, m⟩ (.ok ()) inv yields
      = [SEvent.invoke oid m] := rfl

/-- Claim C10, counterexample: invoking a method through a proxy changes
the stored message field of the proxy struct, so the proxy is not immutable
after construction. -/
theorem proxy_call_mutates_message_field :
    ruby_proxy_object_method_missing ⟨0, 0, 1, RValue.nil, 2⟩ (RValue.str 5)
      ≠ ⟨0, 0, 1, RValue.nil, 2⟩ := by decide

/-- Claim C10 (amended): each of method_missing, oneway and oneway_sync
stores the outgoing message into the message field of the proxy (so the
current outgoing message IS stored proxy state, shared across calls); the
session, ruby_session, object_id and mutex fields are never changed, and
sync changes nothing. -/
theorem proxy_call_stores_message_only (p : Proxy_Object) (m : RValue) :
    (ruby_proxy_object_method_missing p m).session = p.session
    ∧ (ruby_proxy_object_method_missing p m).ruby_session = p.ruby_session
    ∧ (ruby_proxy_object_method_missing p m).object_id = p.object_id
    ∧ (ruby_proxy_object_method_missing p m).mutex = p.mutex
    ∧ (ruby_proxy_object_method_missing p m).message = m
    ∧ ruby_proxy_object_oneway p m = ruby_proxy_object_method_missing p m
    ∧ ruby_proxy_object_oneway_sync p m = ruby_proxy_object_method_missing p m
    ∧ ruby_proxy_object_sync_state p = p :=
  ⟨rfl, rfl, rfl, rfl, rfl, rfl, rfl, rfl⟩

end ROMP
